import Mathlib

/-!
Verification development for the tone analysis engine of `text_toner_backend`.

The Python source (`app/services/tone_analyzer.py`, `app/models.py`,
`app/config.py`) is embedded shallowly:

* Python `str` is embedded as Lean `String` (a wrapper around `List Char`);
  the character-level operations used by the source (`lower`, `strip`,
  slicing, `in`-substring test, `replace`) are defined below on `.data`.
* Fallible Python code is embedded in `Except PyErr`; an attribute access
  `ToneType.NAME` on the three-member enum of `models.py` is the fallible
  lookup `ToneType.lookup "NAME"`, which raises `AttributeError` for the
  eight legacy member names that `tone_analyzer.py` still references.
* The Hugging Face model (tokenizer + sequence classifier) is an opaque
  external collaborator `Backend`: `load` models
  `AutoTokenizer/AutoModel.from_pretrained`, and `classify` collapses the
  tokenizer/forward/softmax/argmax block of `_analyze_sentiment` into one
  call returning the predicted class index and its confidence.
-/

/-! ## Python string primitives -/

/-- Does `needle` occur at the head of `hay`? (helper for the Python `in` test). -/
def listStartsWith : List Char → List Char → Bool
  | [], _ => true
  | _ :: _, [] => false
  | a :: as, b :: bs => a == b && listStartsWith as bs

/-- Does `needle` occur contiguously anywhere in the second list?
Embeds the Python substring test `needle in hay`. -/
def containsSubList (needle : List Char) : List Char → Bool
  | [] => needle.isEmpty
  | c :: rest => listStartsWith needle (c :: rest) || containsSubList needle rest

/-- Python `needle in hay` on strings. -/
def pyIn (needle hay : String) : Bool :=
  containsSubList needle.data hay.data

/-- Python `str.lower()` (ASCII case folding suffices for the source's keyword lists). -/
def pyLower (s : String) : String :=
  ⟨s.data.map Char.toLower⟩

/-- Strip leading and trailing whitespace from a character list. -/
def stripList (l : List Char) : List Char :=
  ((l.dropWhile Char.isWhitespace).reverse.dropWhile Char.isWhitespace).reverse

/-- Python `str.strip()`. -/
def pyStrip (s : String) : String :=
  ⟨stripList s.data⟩

/-- Python prefix slice `s[:n]`. -/
def pySlice (s : String) (n : Nat) : String :=
  ⟨s.data.take n⟩

/-- Replace every (non-overlapping, left-to-right) occurrence of `old` by `new`,
as Python `str.replace` does.  (Every call site in the source passes a
non-empty `old`; the empty-pattern corner case is therefore irrelevant here.) -/
def pyReplaceList (old new : List Char) : List Char → List Char
  | [] => []
  | c :: rest =>
    if old ≠ [] && listStartsWith old (c :: rest) then
      new ++ pyReplaceList old new (rest.drop (old.length - 1))
    else
      c :: pyReplaceList old new rest
termination_by l => l.length
decreasing_by
  · simp only [List.length_drop, List.length_cons]
    omega
  · simp only [List.length_cons]
    omega

/-- Python `s.replace(old, new)`. -/
def pyReplace (s old new : String) : String :=
  ⟨pyReplaceList old.data new.data s.data⟩

/-! ## Errors raised by the embedded Python code -/

/-- The Python exceptions that the embedded code can raise. -/
inductive PyErr where
  /-- `AttributeError`: access to a missing enum member, carrying the member name. -/
  | attributeError (member : String)
  /-- A generic `Exception(msg)`, or an error propagated from the model backend. -/
  | exception (msg : String)
  /-- `IndexError`: list index out of range. -/
  | indexError
  /-- Pydantic `ValidationError` for a missing required field. -/
  | validationError (missingField : String)
deriving DecidableEq, Repr

/-! ## `app/models.py` -/

/-- `models.ToneType` (lines 6-9): the closed three-member enumeration. -/
inductive ToneType where
  | sad
  | angry
  | friendly
deriving DecidableEq, BEq, Repr

/-- The `.value` of each enum member, as declared in `models.py`. -/
def ToneType.value : ToneType → String
  | .sad => "sad"
  | .angry => "angry"
  | .friendly => "friendly"

/-- Python attribute access `ToneType.NAME`.  The enum of `models.py` declares
exactly the members `SAD`, `ANGRY`, `FRIENDLY`; accessing any other name
raises `AttributeError`. -/
def ToneType.lookup (name : String) : Except PyErr ToneType :=
  if name = "SAD" then .ok .sad
  else if name = "ANGRY" then .ok .angry
  else if name = "FRIENDLY" then .ok .friendly
  else .error (.attributeError name)

/-- `models.ToneAnalysisResponse` (lines 29-31): the declared response model,
with required fields `tone` and `improved_text`. -/
structure ToneAnalysisResponse where
  tone : String
  improved_text : String
deriving DecidableEq, Repr

/-! ## `app/config.py` -/

namespace settings

/-- `Settings.MAX_TEXT_LENGTH` (config.py line 42). -/
def MAX_TEXT_LENGTH : Nat := 512

/-- `Settings.CONFIDENCE_THRESHOLD` (config.py line 43). -/
def CONFIDENCE_THRESHOLD : ℚ := 3 / 10

/-- `Settings.SUPPORTED_TONES` (config.py line 39). -/
def SUPPORTED_TONES : List String := ["sad", "angry", "friendly"]

end settings

/-! ## The model backend collaborator -/

/-- The opaque Hugging Face model capability used by `ToneAnalyzer`.
`load` stands for the `from_pretrained` calls of `load_model`; `classify`
stands for the tokenizer/forward/softmax/argmax block of `_analyze_sentiment`,
returning the predicted class index together with its confidence. -/
structure Backend where
  load : Except PyErr Unit
  classify : String → Except PyErr (Nat × ℚ)

/-! ## `app/services/tone_analyzer.py` -/

/-- The mutable state of a `ToneAnalyzer` instance: the `is_loaded` flag and
the two dictionaries built by `__init__` (the tokenizer/model handles live in
the `Backend` collaborator). -/
structure ToneAnalyzer where
  is_loaded : Bool
  tone_mapping : List (String × List ToneType)
  tone_keywords : List (ToneType × List String)

/-- `ToneAnalyzer.__init__` (lines 13-36).  The dictionary literals are
evaluated left to right exactly as Python evaluates them, each enum member
access going through `ToneType.lookup`; the first access to a member missing
from the three-member enum raises `AttributeError`. -/
def ToneAnalyzer.init : Except PyErr ToneAnalyzer := do
  -- lines 20-24: self.tone_mapping
  let mFriendly ← ToneType.lookup "FRIENDLY"
  let mEnthusiastic ← ToneType.lookup "ENTHUSIASTIC"
  let mProfessional ← ToneType.lookup "PROFESSIONAL"
  let mApologetic ← ToneType.lookup "APOLOGETIC"
  let mEmotional ← ToneType.lookup "EMOTIONAL"
  let mFormal ← ToneType.lookup "FORMAL"
  let mCasual ← ToneType.lookup "CASUAL"
  let mAssertive ← ToneType.lookup "ASSERTIVE"
  let tone_mapping : List (String × List ToneType) :=
    [("positive", [mFriendly, mEnthusiastic, mProfessional]),
     ("negative", [mApologetic, mEmotional]),
     ("neutral", [mFormal, mCasual, mAssertive])]
  -- lines 27-36: self.tone_keywords (keys evaluated in source order)
  let kFormal ← ToneType.lookup "FORMAL"
  let kFriendly ← ToneType.lookup "FRIENDLY"
  let kApologetic ← ToneType.lookup "APOLOGETIC"
  let kAssertive ← ToneType.lookup "ASSERTIVE"
  let kEmotional ← ToneType.lookup "EMOTIONAL"
  let kProfessional ← ToneType.lookup "PROFESSIONAL"
  let kCasual ← ToneType.lookup "CASUAL"
  let kEnthusiastic ← ToneType.lookup "ENTHUSIASTIC"
  let tone_keywords : List (ToneType × List String) :=
    [(kFormal, ["sincerely", "respectfully", "regards", "yours truly", "please", "would you", "could you"]),
     (kFriendly, ["hey", "hi", "hello", "thanks", "thank you", "appreciate", "great", "awesome"]),
     (kApologetic, ["sorry", "apologize", "apology", "regret", "unfortunately", "my bad", "excuse me"]),
     (kAssertive, ["must", "should", "need to", "have to", "will", "shall", "definitely", "certainly"]),
     (kEmotional, ["feel", "feeling", "upset", "happy", "sad", "angry", "excited", "worried"]),
     (kProfessional, ["business", "professional", "corporate", "industry", "expertise", "experience"]),
     (kCasual, ["cool", "awesome", "great", "nice", "yeah", "sure", "okay", "no problem"]),
     (kEnthusiastic, ["amazing", "fantastic", "incredible", "wonderful", "excellent", "brilliant", "outstanding"])]
  .ok { is_loaded := false, tone_mapping := tone_mapping, tone_keywords := tone_keywords }

/-- Module-level singleton `tone_analyzer = ToneAnalyzer()` (line 235). -/
def tone_analyzer : Except PyErr ToneAnalyzer :=
  ToneAnalyzer.init

/-- `ToneAnalyzer.load_model` (lines 38-55): attempt the backend load; on
success set `is_loaded`; on failure log and re-raise (`raise` in the
`except` block propagates the original error). -/
def ToneAnalyzer.load_model (self : ToneAnalyzer) (b : Backend) : Except PyErr ToneAnalyzer :=
  match b.load with
  | .error e => .error e
  | .ok _ => .ok { self with is_loaded := true }

/-- `ToneAnalyzer._preprocess_text` (lines 57-65): truncate to
`settings.MAX_TEXT_LENGTH` characters if longer, then `strip()`. -/
def preprocess_text (text : String) : String :=
  let text :=
    if text.length > settings.MAX_TEXT_LENGTH then pySlice text settings.MAX_TEXT_LENGTH
    else text
  pyStrip text

/-- `ToneAnalyzer._analyze_sentiment` (lines 67-92): raise if the model is not
loaded, otherwise run the classifier and index
`["negative", "neutral", "positive"]` by the predicted class (a Python list
index, raising `IndexError` when out of range). -/
def ToneAnalyzer.analyze_sentiment (self : ToneAnalyzer) (b : Backend) (text : String) :
    Except PyErr (String × ℚ) := do
  if self.is_loaded = false then
    throw (.exception "Model not loaded")
  let (predicted_class, confidence) ← b.classify text
  let sentiment_labels : List String := ["negative", "neutral", "positive"]
  if h : predicted_class < sentiment_labels.length then
    .ok (sentiment_labels.get ⟨predicted_class, h⟩, confidence)
  else
    .error .indexError

/-- `ToneAnalyzer._analyze_tone_keywords` (lines 94-106): for each configured
tone, the score is the number of its keywords occurring in the lowercased text
divided by the length of the keyword list (0 for an empty list). -/
def ToneAnalyzer.analyze_tone_keywords (self : ToneAnalyzer) (text : String) :
    List (ToneType × ℚ) :=
  let text_lower := pyLower text
  self.tone_keywords.map (fun p =>
    let score := (p.2.filter (fun keyword => pyIn keyword text_lower)).length
    (p.1, if p.2.length ≠ 0 then (score : ℚ) / (p.2.length : ℚ) else 0))

/-- `ToneAnalyzer._generate_suggestions` (lines 108-144).  Each `if`/`elif`
condition compares against an enum member, and Python evaluates those member
accesses lazily in order `FORMAL`, `ASSERTIVE`, `EMOTIONAL`, `CASUAL`; the
very first access raises `AttributeError`, so no branch is reachable. -/
def generate_suggestions (_text : String) (detected_tone : ToneType) :
    Except PyErr (List String) := do
  let suggestions : List String := []
  let suggestions ← (do
    let formal ← ToneType.lookup "FORMAL"
    if detected_tone = formal then
      pure (suggestions ++
        ["Consider using more conversational language for a friendlier tone",
         "Try adding personal pronouns like \x27I\x27 and \x27you\x27 to make it more engaging",
         "Include a greeting or closing to make it more personable"])
    else do
      let assertive ← ToneType.lookup "ASSERTIVE"
      if detected_tone = assertive then
        pure (suggestions ++
          ["Consider softening your language with phrases like \x27I think\x27 or \x27perhaps\x27",
           "Try using questions instead of statements to be more collaborative",
           "Add context or reasoning to make your point more persuasive"])
      else do
        let emotional ← ToneType.lookup "EMOTIONAL"
        if detected_tone = emotional then
          pure (suggestions ++
            ["Consider using more neutral language to maintain professionalism",
             "Try focusing on facts and solutions rather than feelings",
             "Use \x27I feel\x27 statements to express emotions constructively"])
        else do
          let casual ← ToneType.lookup "CASUAL"
          if detected_tone = casual then
            pure (suggestions ++
              ["Consider using more formal language for professional contexts",
               "Try using complete sentences and proper punctuation",
               "Add specific details to make your message more informative"])
          else
            pure suggestions)
  let suggestions := suggestions ++
    ["Consider your audience when choosing your tone",
     "Make sure your message is clear and actionable",
     "Proofread for grammar and spelling"]
  .ok (suggestions.take 3)

/-- `ToneAnalyzer._improve_text` (lines 146-182).  A `None` target defaults to
`ToneType.PROFESSIONAL` (line 150); the branch conditions (lines 155, 170)
access `ToneType.CASUAL` / `ToneType.ASSERTIVE` with Python's short-circuit
`and`; each such member access goes through `ToneType.lookup`. -/
def improve_text (text : String) (detected_tone : ToneType) (target_tone : Option ToneType) :
    Except PyErr String := do
  let target ← (match target_tone with
    | none => ToneType.lookup "PROFESSIONAL"
    | some t => pure t)
  let improved_text := text
  -- line 155: `detected_tone == ToneType.CASUAL and target_tone == ToneType.PROFESSIONAL`
  let cond1 ← (do
    let casual ← ToneType.lookup "CASUAL"
    if detected_tone = casual then
      let professional ← ToneType.lookup "PROFESSIONAL"
      pure (decide (target = professional))
    else
      pure false)
  if cond1 then
    let replacements : List (String × String) :=
      [("hey", "Hello"), ("hi", "Hello"), ("thanks", "Thank you"), ("cool", "excellent"),
       ("awesome", "outstanding"), ("yeah", "yes"), ("okay", "acceptable")]
    .ok (replacements.foldl (fun acc p => pyReplace acc p.1 p.2) improved_text)
  else
    -- line 170: `detected_tone == ToneType.ASSERTIVE and target_tone == ToneType.FRIENDLY`
    let cond2 ← (do
      let assertive ← ToneType.lookup "ASSERTIVE"
      if detected_tone = assertive then
        let friendlyMember ← ToneType.lookup "FRIENDLY"
        pure (decide (target = friendlyMember))
      else
        pure false)
    if cond2 then
      let replacements : List (String × String) :=
        [("must", "should consider"), ("have to", "might want to"),
         ("need to", "could benefit from"), ("will", "would like to")]
      .ok (replacements.foldl (fun acc p => pyReplace acc p.1 p.2) improved_text)
    else
      .ok improved_text

/-- `ToneAnalyzer.analyze_tone` (lines 184-232), the pipeline entry point.
Every step is embedded in source order; note that on line 199 the default
argument `[ToneType.CASUAL]` of `dict.get` is evaluated *before* the lookup,
and line 202 performs a second `ToneType.CASUAL` access.  The final
`ToneAnalysisResponse(...)` call (lines 224-232) passes the keywords
`original_text`, `detected_tone`, `confidence_score`, `tone_breakdown`,
`suggestions`, `improved_text`, but `models.ToneAnalysisResponse` declares the
required fields `tone` and `improved_text`; pydantic therefore raises a
`ValidationError` for the missing required field `tone`. -/
def ToneAnalyzer.analyze_tone (self : ToneAnalyzer) (b : Backend) (text : String) :
    Except PyErr ToneAnalysisResponse := do
  -- lines 186-187
  let self ← if self.is_loaded then pure self else self.load_model b
  -- line 190
  let processed_text := preprocess_text text
  -- line 193
  let (sentiment, sentiment_confidence) ← self.analyze_sentiment b processed_text
  -- line 196
  let tone_scores := self.analyze_tone_keywords processed_text
  -- line 199
  let casualDefault ← ToneType.lookup "CASUAL"
  let sentiment_tone_candidates := (List.lookup sentiment self.tone_mapping).getD [casualDefault]
  -- lines 202-209
  let best_tone_init ← ToneType.lookup "CASUAL"
  let best := sentiment_tone_candidates.foldl
    (fun (acc : ToneType × ℚ) tone =>
      let score := ((List.lookup tone tone_scores).getD 0) * sentiment_confidence
      if acc.2 < score then (tone, score) else acc)
    (best_tone_init, 0)
  -- lines 212-214 (`sentiment_tone_candidates[0]` is a Python list index)
  let best ←
    if best.2 < settings.CONFIDENCE_THRESHOLD then
      match sentiment_tone_candidates with
      | [] => throw .indexError
      | c :: _ => pure (c, sentiment_confidence)
    else
      pure best
  -- lines 217-218
  let _suggestions ← generate_suggestions processed_text best.1
  let _improved_text ← improve_text processed_text best.1 none
  -- lines 221-222
  let _tone_breakdown := tone_scores.map (fun p => (p.1.value, p.2)) ++
    [("sentiment", sentiment_confidence)]
  -- lines 224-232: the constructor call omits the required field `tone`
  throw (.validationError "tone")

/-! ## Concrete states and backends used in witnesses and counterexamples -/

/-- A hypothetical analyzer state that has not loaded its model (the state
`__init__` would have produced had it not raised). -/
def st0 : ToneAnalyzer :=
  { is_loaded := false, tone_mapping := [], tone_keywords := [] }

/-- A hypothetical analyzer state whose model is already loaded. -/
def loadedState : ToneAnalyzer :=
  { is_loaded := true, tone_mapping := [], tone_keywords := [] }

/-- A backend whose every invocation raises. -/
def failingBackend : Backend :=
  { load := .error (.exception "load failure"),
    classify := fun _ => .error (.exception "load failure") }

/-- A deterministic backend that always classifies the input as class 2
("positive") with confidence 1. -/
def positiveBackend : Backend :=
  { load := .ok (), classify := fun _ => .ok (2, 1) }

/-- A deterministic backend that always classifies the input as class 0
("negative") with confidence 1. -/
def negativeBackend : Backend :=
  { load := .ok (), classify := fun _ => .ok (0, 1) }

/-- A deterministic backend classifying everything as class 1 ("neutral"). -/
def neutralBackend : Backend :=
  { load := .ok (), classify := fun _ => .ok (1, 1 / 2) }

/-- A second, definitionally identical copy of `neutralBackend`. -/
def neutralBackend2 : Backend :=
  { load := .ok (), classify := fun _ => .ok (1, 1 / 2) }

/-! ## Basic reduction lemmas -/

theorem exceptPure_eq_ok (a : α) : (pure a : Except ε α) = Except.ok a := rfl

theorem exceptBind_ok (a : α) (f : α → Except ε β) : (Except.ok a >>= f) = f a := rfl

theorem exceptBind_error (e : ε) (f : α → Except ε β) :
    ((Except.error e : Except ε α) >>= f) = .error e := rfl

theorem lookup_CASUAL : ToneType.lookup "CASUAL" = .error (.attributeError "CASUAL") := rfl

/-- Every invocation of `analyze_tone` fails: either the backend load or
classification raises, the predicted class is out of range, or — when the
backend behaves — line 199 evaluates `ToneType.CASUAL`, which does not exist
in the three-member enum, raising `AttributeError`. -/
theorem analyze_tone_always_errors (a : ToneAnalyzer) (b : Backend) (text : String) :
    ∃ e, a.analyze_tone b text = .error e := by
  by_cases hl : a.is_loaded
  · rcases h2 : a.analyze_sentiment b (preprocess_text text) with e | ⟨s, c⟩
    · exact ⟨e, by
        simp only [ToneAnalyzer.analyze_tone, hl, if_true, exceptPure_eq_ok, exceptBind_ok, h2, exceptBind_error]⟩
    · exact ⟨.attributeError "CASUAL", by
        simp only [ToneAnalyzer.analyze_tone, hl, if_true, exceptPure_eq_ok, exceptBind_ok, h2, lookup_CASUAL,
          exceptBind_error]⟩
  · rcases h0 : b.load with e | u
    · exact ⟨e, by
        simp only [ToneAnalyzer.analyze_tone, hl, if_false, Bool.false_eq_true,
          ToneAnalyzer.load_model, h0, exceptBind_error]⟩
    · rcases h2 : ToneAnalyzer.analyze_sentiment { a with is_loaded := true } b
          (preprocess_text text) with e | ⟨s, c⟩
      · exact ⟨e, by
          simp only [ToneAnalyzer.analyze_tone, hl, if_false, Bool.false_eq_true,
            ToneAnalyzer.load_model, h0, exceptPure_eq_ok, exceptBind_ok, h2, exceptBind_error]⟩
      · exact ⟨.attributeError "CASUAL", by
          simp only [ToneAnalyzer.analyze_tone, hl, if_false, Bool.false_eq_true,
            ToneAnalyzer.load_model, h0, exceptPure_eq_ok, exceptBind_ok, h2, lookup_CASUAL, exceptBind_error]⟩

theorem length_dropWhile_le (p : Char → Bool) (l : List Char) :
    (l.dropWhile p).length ≤ l.length := by
  induction l with
  | nil => simp
  | cons c rest ih =>
    rw [List.dropWhile_cons]
    split
    · exact le_trans ih (Nat.le_succ _)
    · exact le_refl _

theorem stripList_length_le (l : List Char) : (stripList l).length ≤ l.length := by
  unfold stripList
  rw [List.length_reverse]
  refine le_trans (length_dropWhile_le _ _) ?_
  rw [List.length_reverse]
  exact length_dropWhile_le _ _

/-! ## Claim theorems -/

/-- C2: constructing a `ToneAnalyzer` always raises `AttributeError`:
`__init__` evaluates `ToneType.FRIENDLY` (which exists) and then
`ToneType.ENTHUSIASTIC`, which is not a member of the three-member enum
`{sad, angry, friendly}`, so the module-level singleton
`tone_analyzer = ToneAnalyzer()` is never created and no engine operation is
reachable through it. -/
theorem C2_singleton_construction_raises :
    tone_analyzer = .error (.attributeError "ENTHUSIASTIC") := rfl

/-- C1 counterexample: the claim says a backend failure inside the pipeline is
converted to the fail-safe result `{tone: "friendly", rewritten: original}`.
With a backend whose load raises, `analyze_tone` instead propagates the
backend's own error; it returns no well-formed result at all. -/
theorem C1_counterexample :
    st0.analyze_tone failingBackend "hello" = .error (.exception "load failure") := rfl

/-- C1 (amended): `analyze_tone` contains no exception handler and never
returns a well-formed result for any state, backend behavior and input text:
every invocation raises (a backend error, an out-of-range class index, or the
`AttributeError` from the nonexistent member `ToneType.CASUAL` on line 199),
and the error propagates to the caller; the fail-safe
`{tone: "friendly", rewritten: original}` is never produced. -/
theorem C1_analyze_tone_never_returns (a : ToneAnalyzer) (b : Backend) (text : String) :
    (a.analyze_tone b text).isOk = false := by
  obtain ⟨e, he⟩ := analyze_tone_always_errors a b text
  rw [he]
  rfl

/-- C3: evaluation of the pipeline at the failing input "hello" with a loaded
state and a successful backend (class 2 = "positive", confidence 1): instead
of returning a label from `{sad, angry, friendly}`, the code raises
`AttributeError` on `ToneType.CASUAL` (line 199). -/
theorem C3_no_label_at_failing_input :
    loadedState.analyze_tone positiveBackend "hello" = .error (.attributeError "CASUAL") := rfl

/-- C4 counterexample: with an unloaded state and a backend whose every
invocation raises, the claim says detection returns "friendly" and rewriting
returns the preprocessed input; instead `analyze_tone` propagates the
backend's load error unchanged. -/
theorem C4_counterexample :
    st0.analyze_tone failingBackend "Have a nice day" = .error (.exception "load failure") :=
  rfl

/-- C4 (amended): backend failures are not converted to safe defaults at any
layer of the engine: when the model is not loaded and the backend load
raises, `analyze_tone` re-raises that very error to its caller
(`load_model` logs and re-raises; `_analyze_sentiment` itself raises when the
model is not loaded; no layer catches). -/
theorem C4_backend_error_propagates (a : ToneAnalyzer) (b : Backend) (text : String)
    (e : PyErr) (h1 : a.is_loaded = false) (h2 : b.load = .error e) :
    a.analyze_tone b text = .error e := by
  simp only [ToneAnalyzer.analyze_tone, h1, Bool.false_eq_true, if_false,
    ToneAnalyzer.load_model, h2, exceptBind_error]

/-- C4 witness: the amended statement applied to the concrete unloaded state
and the always-failing backend. -/
theorem C4_witness :
    st0.is_loaded = false ∧ failingBackend.load = .error (.exception "load failure") ∧
      st0.analyze_tone failingBackend "I am fine" = .error (.exception "load failure") :=
  ⟨rfl, rfl, C4_backend_error_propagates st0 failingBackend "I am fine" _ rfl rfl⟩

/-- C5 counterexample: the claim says that when the backend answer contains
none of the three labels (here the sentiment string "negative"), the input
"I am so sorry, I feel hurt" is detected as sad via a sad-keyword fallback.
Instead the pipeline raises `AttributeError` on `ToneType.CASUAL` before any
tone is produced. -/
theorem C5_counterexample :
    loadedState.analyze_tone negativeBackend "I am so sorry, I feel hurt" =
      .error (.attributeError "CASUAL") := rfl

/-- C5 (amended): no three-label keyword fallback over
`{sorry, disappointed, ...}` / `{angry, mad, ...}` exists in this version;
the keyword step (`_analyze_tone_keywords`) scores the configured tone
categories by the fraction of their keyword lists present in the lowercased
text, and on each of the three example inputs the pipeline raises instead of
returning the claimed label (sad / angry / friendly). -/
theorem C5_no_keyword_fallback (a : ToneAnalyzer) (b : Backend) :
    (∃ e, a.analyze_tone b "I am so sorry, I feel hurt" = .error e) ∧
      (∃ e, a.analyze_tone b "This is so stupid, I hate it" = .error e) ∧
      (∃ e, a.analyze_tone b "Nice to meet you" = .error e) :=
  ⟨analyze_tone_always_errors a b _, analyze_tone_always_errors a b _,
    analyze_tone_always_errors a b _⟩

/-- C6: evaluation at the failing input: the backend of this version returns
a class index (here 0 = "negative"), never a textual answer, and detection
performs no substring scan over any answer; even for an input mentioning both
"sad" and "angry" the pipeline raises `AttributeError` (line 199) instead of
detecting sad. -/
theorem C6_no_textual_scan :
    loadedState.analyze_tone negativeBackend "I feel sad and angry" =
      .error (.attributeError "CASUAL") := rfl

/-- C7 counterexample: the claim says the rewriter falls back to returning
the (preprocessed) input text, never empty. Instead `_improve_text`, invoked
as the pipeline invokes it (default target), raises `AttributeError` on
`ToneType.PROFESSIONAL` (line 150) and returns no text at all. -/
theorem C7_counterexample :
    improve_text "What a wonderful day today" .friendly none =
      .error (.attributeError "PROFESSIONAL") := rfl

/-- C7 (amended): `_improve_text` has no degenerate-output guard (no length
check, no case-insensitive echo check) and never returns any rewritten text:
for every input, detected tone and target tone it raises `AttributeError`
(on `ToneType.PROFESSIONAL` when the target defaults, otherwise on
`ToneType.CASUAL` in the first branch condition of line 155). -/
theorem C7_improve_text_never_returns (text : String) (dt : ToneType) (tt : Option ToneType) :
    ∃ m, improve_text text dt tt = .error (.attributeError m) := by
  cases tt with
  | none => exact ⟨"PROFESSIONAL", rfl⟩
  | some t => exact ⟨"CASUAL", rfl⟩

/-- C8: preprocessing is total and equals taking the prefix of at most
`MAX_TEXT_LENGTH` (512) characters and then trimming surrounding whitespace,
with no other normalization; consequently the preprocessed text passed to the
later steps has at most 512 characters. -/
theorem C8_preprocess_is_truncate_then_trim (s : String) :
    preprocess_text s = pyStrip (pySlice s settings.MAX_TEXT_LENGTH) ∧
      (preprocess_text s).length ≤ settings.MAX_TEXT_LENGTH := by
  obtain ⟨l⟩ := s
  have heq : preprocess_text ⟨l⟩ = pyStrip (pySlice ⟨l⟩ settings.MAX_TEXT_LENGTH) := by
    by_cases h : (String.mk l).length > settings.MAX_TEXT_LENGTH
    · simp only [preprocess_text, if_pos h]
    · have hl : l.length ≤ settings.MAX_TEXT_LENGTH := not_lt.mp h
      simp only [preprocess_text, if_neg h, pySlice, List.take_of_length_le hl]
  refine ⟨heq, ?_⟩
  rw [heq]
  show (stripList (l.take settings.MAX_TEXT_LENGTH)).length ≤ settings.MAX_TEXT_LENGTH
  refine le_trans (stripList_length_le _) ?_
  rw [List.length_take]
  exact min_le_left _ _

/-- C9: tone detection is reproducible: the pipeline is a deterministic
function of the analyzer state, the backend's behavior and the input text, so
two runs against extensionally equal (deterministic) backends on the same
preprocessed text produce identical outcomes. -/
theorem C9_detection_reproducible (a : ToneAnalyzer) (b1 b2 : Backend) (text : String)
    (hload : b1.load = b2.load) (hclassify : ∀ s, b1.classify s = b2.classify s) :
    a.analyze_tone b1 text = a.analyze_tone b2 text := by
  have hb : b1 = b2 := by
    have h2 : b1.classify = b2.classify := funext hclassify
    obtain ⟨l1, c1⟩ := b1
    obtain ⟨l2, c2⟩ := b2
    cases hload
    cases h2
    rfl
  rw [hb]

/-- C9 witness: two definitionally equal deterministic backends give the same
outcome on the same text. -/
theorem C9_witness :
    loadedState.analyze_tone neutralBackend "Hello there" =
      loadedState.analyze_tone neutralBackend2 "Hello there" :=
  C9_detection_reproducible loadedState neutralBackend neutralBackend2 "Hello there" rfl
    (fun _ => rfl)

/-- C10 counterexample: the claim says `_improve_text` with the default
target is the identity for detected tone sad; on input "hey" with detected
tone sad it instead raises `AttributeError` on `ToneType.PROFESSIONAL`. -/
theorem C10_counterexample :
    improve_text "hey" .sad none = .error (.attributeError "PROFESSIONAL") := rfl

/-- C10 (amended): `_improve_text`, invoked without an explicit target tone
(as the pipeline always invokes it), raises `AttributeError` on the very
first statement executed — the default `target_tone = ToneType.PROFESSIONAL`
of line 150 — for every input text and every detected tone; it is never the
identity and its replacement logic is unreachable. -/
theorem C10_improve_text_default_raises (text : String) (dt : ToneType) :
    improve_text text dt none = .error (.attributeError "PROFESSIONAL") := rfl
